import Mathlib

/- Verification of the radical.utils process supervisor (process.py) and
   queue bridge (zmq/queue.py).  The definitions below are shallow
   embeddings of the corresponding Python functions; each doc comment
   names the source location it was translated from. -/

set_option maxHeartbeats 1000000

/- ===================== Queue bridge (zmq/queue.py) ===================== -/

/-- MessagePack-encodable application payloads.  The bridge only ever
    inspects whether a decoded payload is a list (queue.py:271), so the
    scalar cases are represented by an int and a string constructor. -/
inductive Value where
  | vint  : Int → Value
  | vstr  : String → Value
  | vlist : List Value → Value
deriving Repr

/-- True exactly on `vlist` payloads (Python `isinstance(msgs, list)`). -/
def Value.isList : Value → Bool
  | Value.vlist _ => true
  | _ => false

/-- The messages a decoded payload contributes to the relay buffer:
    a list payload contributes its elements (`buf += msgs`), any other
    payload is appended as a single element (`buf.append(msgs)`),
    queue.py:271-272. -/
def payloadMsgs : Value → List Value
  | Value.vlist msgs => msgs
  | v => [v]

/-- Buffering of one received input frame in `_bridge_work`
    (queue.py:268-272): `data` is deserialized and merged into `buf`. -/
def bridgeEnqueue {B : Type} (unpack : B → Value) (buf : List Value) (data : B) :
    List Value :=
  match unpack data with
  | Value.vlist msgs => buf ++ msgs
  | v => buf ++ [v]

/-- What one iteration of the relay loop observes on its two sockets:
    an optional frame pending on the input (PULL) socket, and whether a
    consumer request is pending on the output (REP) socket. -/
structure RelayEvents (B : Type) where
  inData : Option B
  outReq : Bool

/-- One iteration of `_bridge_work` (queue.py:257-299): first the input
    poll and buffering, then, only if the buffer is non-empty, the output
    poll; a pending request is answered with the serialized first
    `bulk_size` buffered messages, which are then deleted from the head
    of the buffer (`bulk = buf[:self._bulk_size]; ...;
    del(buf[:self._bulk_size])`). -/
def relayStep {B : Type} (pack : Value → B) (unpack : B → Value) (bulkSize : Nat)
    (buf : List Value) (ev : RelayEvents B) : List Value × Option B :=
  let buf1 := match ev.inData with
    | some data => bridgeEnqueue unpack buf data
    | none => buf
  if buf1.isEmpty then (buf1, none)
  else if ev.outReq then
    (buf1.drop bulkSize, some (pack (Value.vlist (buf1.take bulkSize))))
  else (buf1, none)

/-- Iterating `_bridge_work` over a list of per-iteration socket
    observations; returns the final buffer and the replies sent, in
    order. -/
def relayRun {B : Type} (pack : Value → B) (unpack : B → Value) (bulkSize : Nat) :
    List Value → List (RelayEvents B) → List Value × List B
  | buf, [] => (buf, [])
  | buf, ev :: evs =>
    ((relayRun pack unpack bulkSize (relayStep pack unpack bulkSize buf ev).1 evs).1,
     (relayStep pack unpack bulkSize buf ev).2.toList
       ++ (relayRun pack unpack bulkSize (relayStep pack unpack bulkSize buf ev).1 evs).2)

/-- The buffered messages contributed by one iteration's input frame. -/
def eventArrival {B : Type} (unpack : B → Value) (ev : RelayEvents B) : List Value :=
  match ev.inData with
  | some data => payloadMsgs (unpack data)
  | none => []

/-- All messages arriving on the input socket over a run, in order. -/
def eventArrivals {B : Type} (unpack : B → Value) : List (RelayEvents B) → List Value
  | [] => []
  | ev :: evs => eventArrival unpack ev ++ eventArrivals unpack evs

/-- The messages carried by one reply frame, as the Getter decodes them. -/
def unbulk {B : Type} (unpack : B → Value) (r : B) : List Value :=
  payloadMsgs (unpack r)

/-- All messages delivered to consumers over a run, in delivery order. -/
def delivered {B : Type} (unpack : B → Value) (reps : List B) : List Value :=
  (reps.map (unbulk unpack)).flatten

theorem bridgeEnqueue_eq {B : Type} (unpack : B → Value) (buf : List Value)
    (data : B) : bridgeEnqueue unpack buf data = buf ++ payloadMsgs (unpack data) := by
  cases h : unpack data <;> simp [bridgeEnqueue, payloadMsgs, h]

theorem delivered_append {B : Type} (unpack : B → Value) (a b : List B) :
    delivered unpack (a ++ b) = delivered unpack a ++ delivered unpack b := by
  simp [delivered]

/-- One relay iteration neither loses nor duplicates messages: what it
    delivers, followed by the new buffer, is the old buffer followed by
    the iteration's arrivals. -/
theorem relayStep_partition {B : Type} (pack : Value → B) (unpack : B → Value)
    (hround : ∀ v, unpack (pack v) = v) (bulkSize : Nat)
    (buf : List Value) (ev : RelayEvents B) :
    delivered unpack (relayStep pack unpack bulkSize buf ev).2.toList
        ++ (relayStep pack unpack bulkSize buf ev).1
      = buf ++ eventArrival unpack ev := by
  have hbuf1 : (match ev.inData with
      | some data => bridgeEnqueue unpack buf data
      | none => buf) = buf ++ eventArrival unpack ev := by
    cases ev with
    | mk inData outReq =>
      cases inData with
      | none => simp [eventArrival]
      | some data => simp [eventArrival, bridgeEnqueue_eq]
  simp only [relayStep, hbuf1]
  by_cases hemp : (buf ++ eventArrival unpack ev).isEmpty
  · simp [hemp, delivered]
  · simp only [hemp, Bool.false_eq_true, if_false]
    cases ev with
    | mk inData outReq =>
      cases outReq with
      | false => simp [delivered]
      | true =>
        simp [delivered, unbulk, hround, payloadMsgs]

/-- Over any run, the delivered messages followed by the final buffer
    are exactly the initial buffer followed by all arrivals: messages
    are delivered in arrival order, each at most once. -/
theorem relayRun_partition {B : Type} (pack : Value → B) (unpack : B → Value)
    (hround : ∀ v, unpack (pack v) = v) (bulkSize : Nat) :
    ∀ (evs : List (RelayEvents B)) (buf : List Value),
      delivered unpack (relayRun pack unpack bulkSize buf evs).2
          ++ (relayRun pack unpack bulkSize buf evs).1
        = buf ++ eventArrivals unpack evs := by
  intro evs
  induction evs with
  | nil => intro buf; simp [relayRun, delivered, eventArrivals]
  | cons ev evs ih =>
    intro buf
    have hstep := relayStep_partition pack unpack hround bulkSize buf ev
    calc delivered unpack (relayRun pack unpack bulkSize buf (ev :: evs)).2
            ++ (relayRun pack unpack bulkSize buf (ev :: evs)).1
        = delivered unpack (relayStep pack unpack bulkSize buf ev).2.toList
            ++ (delivered unpack
                  (relayRun pack unpack bulkSize
                    (relayStep pack unpack bulkSize buf ev).1 evs).2
               ++ (relayRun pack unpack bulkSize
                    (relayStep pack unpack bulkSize buf ev).1 evs).1) := by
          simp [relayRun, delivered_append]
      _ = delivered unpack (relayStep pack unpack bulkSize buf ev).2.toList
            ++ ((relayStep pack unpack bulkSize buf ev).1
               ++ eventArrivals unpack evs) := by
          rw [ih]
      _ = (delivered unpack (relayStep pack unpack bulkSize buf ev).2.toList
            ++ (relayStep pack unpack bulkSize buf ev).1)
               ++ eventArrivals unpack evs := by
          rw [List.append_assoc]
      _ = (buf ++ eventArrival unpack ev) ++ eventArrivals unpack evs := by
          rw [hstep]
      _ = buf ++ eventArrivals unpack (ev :: evs) := by
          simp [eventArrivals]

/-- Events produced by a single Putter issuing the puts `ps` in order
    (`Putter.put`, queue.py:370-374: each put serializes one payload and
    pushes it; the transport delivers the frames in send order). -/
def putEvents {B : Type} (pack : Value → B) (ps : List Value) : List (RelayEvents B) :=
  ps.map (fun p => { inData := some (pack p), outReq := false })

theorem payloadMsgs_of_not_list (v : Value) (h : v.isList = false) :
    payloadMsgs v = [v] := by
  cases v with
  | vint n => rfl
  | vstr s => rfl
  | vlist vs => simp [Value.isList] at h

/-- C6: whenever the relay answers a consumer request from a non-empty
    buffer, the reply holds exactly the first min(bulk_size, len(buffer))
    buffered messages and exactly those are removed from the head of the
    buffer, so the length decreases by the size of the delivered bulk;
    and over any whole run the delivered bulks followed by the remaining
    buffer partition the arrivals, so no buffered message is ever
    delivered to two distinct get calls. -/
theorem relay_bulk_exact :
    (∀ (B : Type) (pack : Value → B) (unpack : B → Value) (bulkSize : Nat)
       (buf : List Value), buf ≠ [] →
       relayStep pack unpack bulkSize buf { inData := none, outReq := true }
           = (buf.drop bulkSize, some (pack (Value.vlist (buf.take bulkSize))))
         ∧ (buf.take bulkSize).length = min bulkSize buf.length
         ∧ buf.take bulkSize ++ buf.drop bulkSize = buf
         ∧ (buf.drop bulkSize).length = buf.length - (buf.take bulkSize).length)
  ∧ (∀ (B : Type) (pack : Value → B) (unpack : B → Value),
       (∀ v, unpack (pack v) = v) → ∀ (bulkSize : Nat)
       (evs : List (RelayEvents B)) (buf : List Value),
       delivered unpack (relayRun pack unpack bulkSize buf evs).2
           ++ (relayRun pack unpack bulkSize buf evs).1
         = buf ++ eventArrivals unpack evs) := by
  constructor
  · intro B pack unpack bulkSize buf hne
    refine ⟨?_, ?_, ?_, ?_⟩
    · simp [relayStep, hne]
    · simp
    · exact List.take_append_drop bulkSize buf
    · simp only [List.length_drop, List.length_take]
      omega
  · intro B pack unpack hround bulkSize evs buf
    exact relayRun_partition pack unpack hround bulkSize evs buf

theorem relay_bulk_exact_witness :
    ([Value.vint 1, Value.vint 2, Value.vint 3] ≠ ([] : List Value))
  ∧ relayStep id id 2 [Value.vint 1, Value.vint 2, Value.vint 3]
      { inData := none, outReq := true }
      = ([Value.vint 3], some (Value.vlist [Value.vint 1, Value.vint 2]))
  ∧ delivered id (relayRun id id 2 [Value.vint 1]
        [{ inData := none, outReq := true }]).2
      ++ (relayRun id id 2 [Value.vint 1] [{ inData := none, outReq := true }]).1
      = [Value.vint 1] ++ eventArrivals id [{ inData := none, outReq := true }] := by
  refine ⟨List.cons_ne_nil _ _, ?_, ?_⟩
  · exact (relay_bulk_exact.1 Value id id 2
      [Value.vint 1, Value.vint 2, Value.vint 3] (List.cons_ne_nil _ _)).1
  · exact relay_bulk_exact.2 Value id id (fun _ => rfl) 2
      [{ inData := none, outReq := true }] [Value.vint 1]

/-- C7: the relay buffer observes the puts of a single Putter in put
    order; the messages delivered over any run form a prefix of the
    arrival order (so consecutive gets return in-order bulks); and in
    the concrete scenario with bulk_size 2 and puts 1,2,3,4,5 the three
    gets receive [1,2], [3,4], [5] in that order. -/
theorem relay_order_fifo :
    (∀ (B : Type) (pack : Value → B) (unpack : B → Value),
       (∀ v, unpack (pack v) = v) →
       ∀ (ps : List Value), (∀ p ∈ ps, p.isList = false) →
         eventArrivals unpack (putEvents pack ps) = ps)
  ∧ (∀ (B : Type) (pack : Value → B) (unpack : B → Value),
       (∀ v, unpack (pack v) = v) → ∀ (bulkSize : Nat) (evs : List (RelayEvents B)),
         delivered unpack (relayRun pack unpack bulkSize [] evs).2
           <+: eventArrivals unpack evs)
  ∧ ((relayRun id id 2 []
        (putEvents id ([1, 2, 3, 4, 5].map Value.vint)
          ++ [{ inData := none, outReq := true }, { inData := none, outReq := true },
              { inData := none, outReq := true }])).2.map (unbulk id)
      = [[Value.vint 1, Value.vint 2], [Value.vint 3, Value.vint 4], [Value.vint 5]]) := by
  refine ⟨?_, ?_, ?_⟩
  · intro B pack unpack hround ps
    induction ps with
    | nil => intro _; rfl
    | cons p ps ih =>
      intro hnl
      have hp := payloadMsgs_of_not_list p (hnl p (List.mem_cons_self p ps))
      have ht := ih (fun q hq => hnl q (List.mem_cons_of_mem p hq))
      simp only [putEvents, List.map_cons, eventArrivals, eventArrival] at ht ⊢
      rw [hround p, hp]
      simpa [putEvents] using ht
  · intro B pack unpack hround bulkSize evs
    exact ⟨(relayRun pack unpack bulkSize [] evs).1,
      by simpa using relayRun_partition pack unpack hround bulkSize evs []⟩
  · rfl

theorem relay_order_fifo_witness :
    eventArrivals id (putEvents id [Value.vint 7, Value.vint 8])
      = [Value.vint 7, Value.vint 8]
  ∧ delivered id (relayRun id id 2 [] (putEvents id [Value.vint 7, Value.vint 8])).2
      <+: eventArrivals id (putEvents id [Value.vint 7, Value.vint 8]) := by
  constructor
  · exact relay_order_fifo.1 Value id id (fun _ => rfl)
      [Value.vint 7, Value.vint 8]
      (by intro p hp
          simp only [List.mem_cons, List.not_mem_nil, or_false] at hp
          rcases hp with rfl | rfl <;> rfl)
  · exact relay_order_fifo.2.1 Value id id (fun _ => rfl) 2
      (putEvents id [Value.vint 7, Value.vint 8])

/-- Putter.put (queue.py:370-374): serialize the payload and push the
    frame into the bridge input. -/
def putter_put {B : Type} (pack : Value → B) (msg : Value) : B := pack msg

/-- One put matched with one consumer request against an initially empty
    bridge buffer (one Putter, one Getter, no other traffic): the relay
    buffers the put and answers the request with the serialized bulk,
    which Getter.get deserializes and returns whole (queue.py:445-458).
    Returns none when no reply is produced (empty buffer: the request
    stays pending and get blocks). -/
def get_put {B : Type} (pack : Value → B) (unpack : B → Value) (bulkSize : Nat)
    (msg : Value) : Option Value :=
  match (relayRun pack unpack bulkSize []
           [{ inData := some (putter_put pack msg), outReq := true }]).2 with
  | [r] => some (unpack r)
  | _ => none

/-- C8 counterexample: for the non-list payload 42 the matched get does
    not return the payload itself but the one-element bulk list holding
    it, so `get(put(M)) = M` fails even modulo the encoder round trip. -/
theorem get_put_not_identity_cex :
    get_put id id 10 (Value.vint 42) = some (Value.vlist [Value.vint 42])
  ∧ get_put id id 10 (Value.vint 42) ≠ some (Value.vint 42) := by
  constructor
  · rfl
  · intro h
    have h1 : get_put id id 10 (Value.vint 42)
        = some (Value.vlist [Value.vint 42]) := rfl
    rw [h1] at h
    have h2 := Option.some.inj h
    exact Value.noConfusion h2

/-- C8 amended: the matched get returns the payload in bulk framing:
    the one-element bulk [M] for a non-list M (bulk_size ≥ 1), and M
    itself when M is a non-empty list of at most bulk_size elements —
    equality with M modulo the encoder round trip holds exactly up to
    that framing. -/
theorem get_put_bulk_framing :
    ∀ (B : Type) (pack : Value → B) (unpack : B → Value),
      (∀ v, unpack (pack v) = v) →
      ∀ (bulkSize : Nat) (msg : Value),
        (msg.isList = false → 1 ≤ bulkSize →
           get_put pack unpack bulkSize msg = some (Value.vlist [msg]))
      ∧ (∀ vs, msg = Value.vlist vs → vs ≠ [] → vs.length ≤ bulkSize →
           get_put pack unpack bulkSize msg = some (Value.vlist vs)) := by
  intro B pack unpack hround bulkSize msg
  constructor
  · intro hnl hbs
    have hp := payloadMsgs_of_not_list msg hnl
    simp [get_put, putter_put, relayRun, relayStep, bridgeEnqueue_eq, hround, hp]
    cases bulkSize with
    | zero => omega
    | succ n => simp [hround]
  · intro vs hvs hne hlen
    subst hvs
    have htake : vs.take bulkSize = vs := List.take_of_length_le hlen
    simp [get_put, putter_put, relayRun, relayStep, bridgeEnqueue_eq, hround,
          payloadMsgs, hne, htake]

theorem get_put_bulk_framing_witness :
    get_put id id 10 (Value.vint 7) = some (Value.vlist [Value.vint 7])
  ∧ get_put id id 2 (Value.vlist [Value.vint 1, Value.vint 2])
      = some (Value.vlist [Value.vint 1, Value.vint 2]) := by
  constructor
  · exact (get_put_bulk_framing Value id id (fun _ => rfl) 10 (Value.vint 7)).1
      rfl (by omega)
  · exact (get_put_bulk_framing Value id id (fun _ => rfl) 2
      (Value.vlist [Value.vint 1, Value.vint 2])).2
      [Value.vint 1, Value.vint 2] rfl (List.cons_ne_nil _ _) (by simp)

/-- Getter endpoint state: the `_requested` request-in-flight flag
    (queue.py:416) plus a count of requests actually sent on the REQ
    socket, to make "no second request is sent" observable. -/
structure GetterState where
  requested : Bool
  sentCount : Nat
deriving DecidableEq, Repr

/-- Getter.get_nowait (queue.py:463-492): under the lock, send a request
    only if none is in flight; then poll up to the timeout.  `ready` is
    the poll outcome, `reply` the serialized reply frame when ready.  On
    timeout return none and leave `_requested` set. -/
def get_nowait {B : Type} (unpack : B → Value) (st : GetterState) (ready : Bool)
    (reply : B) : GetterState × Option Value :=
  let st1 := if st.requested then st
             else { requested := true, sentCount := st.sentCount + 1 }
  if ready then ({ st1 with requested := false }, some (unpack reply))
  else (st1, none)

/-- Getter.get (queue.py:445-458): send a request only if none is in
    flight, then block on recv; `reply` is the reply frame that arrives
    for the outstanding request. -/
def getter_get {B : Type} (unpack : B → Value) (st : GetterState) (reply : B) :
    GetterState × Value :=
  let st1 := if st.requested then st
             else { requested := true, sentCount := st.sentCount + 1 }
  ({ st1 with requested := false }, unpack reply)

/-- C10: a get_nowait that sends a request and times out returns none
    and leaves the request-in-flight flag set; a subsequent get or
    get_nowait on that Getter sends no further request (the sent count
    stays at one more than before) and, once the reply to the original
    request arrives, returns it and clears the flag. -/
theorem get_nowait_timeout_preserves_request :
    ∀ (B : Type) (unpack : B → Value) (st : GetterState) (d reply : B),
      st.requested = false →
      (get_nowait unpack st false d).2 = none
    ∧ (get_nowait unpack st false d).1.requested = true
    ∧ (get_nowait unpack st false d).1.sentCount = st.sentCount + 1
    ∧ (getter_get unpack (get_nowait unpack st false d).1 reply).1.sentCount
        = st.sentCount + 1
    ∧ (getter_get unpack (get_nowait unpack st false d).1 reply).2 = unpack reply
    ∧ (getter_get unpack (get_nowait unpack st false d).1 reply).1.requested = false
    ∧ (get_nowait unpack (get_nowait unpack st false d).1 true reply).1.sentCount
        = st.sentCount + 1
    ∧ (get_nowait unpack (get_nowait unpack st false d).1 true reply).2
        = some (unpack reply) := by
  intro B unpack st d reply h
  simp [get_nowait, getter_get, h]

theorem get_nowait_timeout_preserves_request_witness :
    (get_nowait id (GetterState.mk false 0) false (Value.vint 0)).2 = none
  ∧ (get_nowait id (GetterState.mk false 0) false (Value.vint 0)).1.sentCount = 1
  ∧ (getter_get id (get_nowait id (GetterState.mk false 0) false (Value.vint 0)).1
        (Value.vlist [Value.vint 5])).1.sentCount = 1
  ∧ (getter_get id (get_nowait id (GetterState.mk false 0) false (Value.vint 0)).1
        (Value.vlist [Value.vint 5])).2 = Value.vlist [Value.vint 5] := by
  have h := get_nowait_timeout_preserves_request Value id (GetterState.mk false 0)
    (Value.vint 0) (Value.vlist [Value.vint 5]) rfl
  exact ⟨h.1, h.2.2.1, h.2.2.2.1, h.2.2.2.2.1⟩

/- ================== Process supervisor (process.py) ==================== -/

instance exceptDecEq {e a : Type} [DecidableEq e] [DecidableEq a] :
    DecidableEq (Except e a) := fun x y =>
  match x, y with
  | Except.ok v, Except.ok w =>
      if h : v = w then isTrue (by rw [h])
      else isFalse (fun hh => h (Except.ok.inj hh))
  | Except.error v, Except.error w =>
      if h : v = w then isTrue (by rw [h])
      else isFalse (fun hh => h (Except.error.inj hh))
  | Except.ok _, Except.error _ => isFalse (fun hh => Except.noConfusion hh)
  | Except.error _, Except.ok _ => isFalse (fun hh => Except.noConfusion hh)

/-- The hardcoded `_BUFSIZE` receive/send buffer limit (process.py:29). -/
def BUFSIZE : Nat := 1024

/-- `_rup_msg_send` (process.py:131-150): a record longer than `_BUFSIZE`
    is rejected with a ValueError before any transmission is attempted;
    otherwise the record goes on the wire with a trailing newline
    (`self._rup_endpoint.send('%s\n' % msg)`). -/
def rup_msg_send (msg : String) : Except String String :=
  if msg.length > BUFSIZE then
    Except.error ("message is larger than 1024: " ++ msg)
  else
    Except.ok (msg ++ "\n")

/-- C9: a lifeline send of a record of exactly 1024 bytes is accepted,
    and a send of any larger record is rejected locally at send time
    (the MessageTooLarge kind, a ValueError in the source) and is never
    transmitted. -/
theorem rup_msg_send_size_limit :
    (∀ msg : String, msg.length = 1024 →
       rup_msg_send msg = Except.ok (msg ++ "\n"))
  ∧ (∀ msg : String, 1024 < msg.length →
       rup_msg_send msg = Except.error ("message is larger than 1024: " ++ msg)
       ∧ ∀ wire, rup_msg_send msg ≠ Except.ok wire) := by
  constructor
  · intro msg h
    simp [rup_msg_send, BUFSIZE, h]
  · intro msg h
    refine ⟨by simp [rup_msg_send, BUFSIZE, h], ?_⟩
    intro wire hw
    simp [rup_msg_send, BUFSIZE, h] at hw

theorem string_mk_replicate_length (n : Nat) (c : Char) :
    (String.mk (List.replicate n c)).length = n := by
  show (List.replicate n c).length = n
  exact List.length_replicate n c

theorem rup_msg_send_size_limit_witness :
    rup_msg_send (String.mk (List.replicate 1024 'a'))
      = Except.ok (String.mk (List.replicate 1024 'a') ++ "\n")
  ∧ rup_msg_send (String.mk (List.replicate 1025 'a'))
      = Except.error ("message is larger than 1024: "
          ++ String.mk (List.replicate 1025 'a')) := by
  constructor
  · exact rup_msg_send_size_limit.1 (String.mk (List.replicate 1024 'a'))
      (string_mk_replicate_length 1024 'a')
  · exact (rup_msg_send_size_limit.2 (String.mk (List.replicate 1025 'a'))
      (by rw [string_mk_replicate_length]; omega)).1

/-- Outcome of one raw `endpoint.recv` in the parent during `start`,
    after `settimeout(self._rup_timeout)` (process.py:336): either data
    arrived within the timeout, or the blocking wait expired raising
    socket.timeout, or another socket error occurred. -/
inductive RecvRaw where
  | bytes (s : String)
  | timedOut
  | sockErr
deriving DecidableEq, Repr

/-- `_rup_msg_recv` (process.py:155-173): returns the received data; the
    blanket `except Exception` catches every error — socket.timeout
    included — and returns the empty string, so this call never raises. -/
def rup_msg_recv (raw : RecvRaw) : String :=
  match raw with
  | RecvRaw.bytes s => s
  | RecvRaw.timedOut => ""
  | RecvRaw.sockErr => ""

/-- The error kinds `start` can raise (process.py:342, 345, 545). -/
inductive StartErr where
  | unexpectedChildMessage (payload : String)
  | noAliveMessage
  | initError (e : String)
deriving DecidableEq, Repr

/-- What `start` did: whether the except-handler invoked `self.stop()`
    (process.py:356-359) and the result it returned or raised. -/
structure StartOutcome where
  stopInvoked : Bool
  result : Except StartErr Unit
deriving DecidableEq, Repr

/-- `start` (process.py:266-359) after the fork: receive `len('alive')`
    bytes (`raw1`); if they are not the string alive, drain the rest of
    the message (`raw2`) and raise `unexpected child message` with the
    combined payload; because `rup_msg_recv` swallows every exception,
    the `except socket.timeout` handler at process.py:344 can never
    fire.  After a successful handshake the parent initializers run
    (`initFails` carries a failure of those, wrapped at process.py:545).
    Every raised error passes through the outer handler, which invokes
    `self.stop()` and re-raises. -/
def rup_start (raw1 raw2 : RecvRaw) (initFails : Option String) : StartOutcome :=
  let msg := rup_msg_recv raw1
  if msg = "alive" then
    match initFails with
    | some e =>
        { stopInvoked := true,
          result := Except.error (StartErr.initError ("initialize: " ++ e)) }
    | none => { stopInvoked := false, result := Except.ok () }
  else
    { stopInvoked := true,
      result := Except.error (StartErr.unexpectedChildMessage
                  (msg ++ rup_msg_recv raw2)) }

/-- C1: when no byte at all arrives within the timeout (the child is
    still initializing), `start` does not raise the startup-timeout
    error `no alive message from child`: the swallowed socket.timeout
    makes the received message the empty string, and start raises
    `unexpected child message ()` — the StartupError kind — instead.
    The spec (and the dead `except socket.timeout` branch of the source)
    intend `StartupTimeout` here. -/
theorem rup_start_timeout_misreported :
    rup_start RecvRaw.timedOut RecvRaw.timedOut none
      = { stopInvoked := true,
          result := Except.error (StartErr.unexpectedChildMessage "") }
  ∧ rup_start RecvRaw.timedOut RecvRaw.timedOut none
      ≠ { stopInvoked := true,
          result := Except.error StartErr.noAliveMessage } := by
  constructor
  · rfl
  · decide

/-- C5: whenever the bytes received during `start` are anything other
    than the sentinel alive, start drains the rest of the message,
    raises `unexpected child message` carrying the full received
    payload, and invokes `stop`; in fact every failure path of `start`
    invokes `stop`, so no failure leaves a lingering child.  For a child
    whose initializer reports `oops init`, the raised payload contains
    that text. -/
theorem rup_start_nonalive_drains_and_stops :
    (∀ (raw1 raw2 : RecvRaw) (initFails : Option String),
       rup_msg_recv raw1 ≠ "alive" →
       rup_start raw1 raw2 initFails
         = { stopInvoked := true,
             result := Except.error (StartErr.unexpectedChildMessage
                         (rup_msg_recv raw1 ++ rup_msg_recv raw2)) })
  ∧ (∀ (raw1 raw2 : RecvRaw) (initFails : Option String) (e : StartErr),
       (rup_start raw1 raw2 initFails).result = Except.error e →
       (rup_start raw1 raw2 initFails).stopInvoked = true)
  ∧ (rup_start (RecvRaw.bytes "Runti") (RecvRaw.bytes "meError: oops init") none
       = { stopInvoked := true,
           result := Except.error (StartErr.unexpectedChildMessage
                       "RuntimeError: oops init") }
     ∧ ("oops init".data : List Char) <:+: "RuntimeError: oops init".data) := by
  refine ⟨?_, ?_, ?_, ⟨"RuntimeError: ".data, [], by rfl⟩⟩
  · intro raw1 raw2 initFails h
    simp [rup_start, h]
  · intro raw1 raw2 initFails e h
    by_cases ha : rup_msg_recv raw1 = "alive"
    · cases initFails with
      | none => simp [rup_start, ha] at h
      | some f => simp [rup_start, ha]
    · simp [rup_start, ha]
  · rfl

theorem rup_start_nonalive_drains_and_stops_witness :
    rup_start (RecvRaw.bytes "boom!") RecvRaw.timedOut none
      = { stopInvoked := true,
          result := Except.error (StartErr.unexpectedChildMessage "boom!") }
  ∧ (rup_start RecvRaw.sockErr RecvRaw.sockErr (some "x")).stopInvoked = true := by
  constructor
  · exact rup_start_nonalive_drains_and_stops.1 (RecvRaw.bytes "boom!")
      RecvRaw.timedOut none (by decide)
  · exact rup_start_nonalive_drains_and_stops.2.1 RecvRaw.sockErr RecvRaw.sockErr
      (some "x") (StartErr.unexpectedChildMessage "") rfl

/-- Role flags and watcher bookkeeping of a Process instance around
    `_rup_initialize` (process.py:110-114: `_rup_term` and
    `_rup_watcher` start out None). -/
structure RupInitState where
  isParent : Bool
  isChild : Bool
  termCreated : Bool
  watcherStarted : Bool
deriving DecidableEq, Repr

/-- `_rup_initialize_parent` (process.py:557-591): create the
    `_rup_term` event and start the watcher thread. -/
def rup_initialize_parent (st : RupInitState) : RupInitState :=
  { st with termCreated := true, watcherStarted := true }

/-- `_rup_initialize_child` (process.py:596-606): create the
    `_rup_term` event and start the watcher thread. -/
def rup_initialize_child (st : RupInitState) : RupInitState :=
  { st with termCreated := true, watcherStarted := true }

/-- `_rup_initialize` (process.py:522-545).  On the parent branch the
    source-code line 531 reads `self._rup_initialize_parent` with no
    call parentheses: a bare attribute access with no effect, so
    `rup_initialize_parent` is never invoked there; the remaining
    statements of that branch (`_rup_initialize_common`,
    `initialize_common`, `initialize_parent`) are no-op defaults.  The
    child branch calls `_rup_initialize_child()` normally. -/
def rup_initialize_dispatch (st : RupInitState) : RupInitState :=
  if st.isParent then
    st
  else if st.isChild then
    rup_initialize_child st
  else st

/-- C2: after `start`, no watcher thread runs on the parent side and no
    parent terminate flag exists, because `_rup_initialize` never calls
    `_rup_initialize_parent` (the call parentheses are missing at
    process.py:531), while the child branch does start its watcher.
    This contradicts the comment at process.py:361-362 (`watcher thread
    is started`) and the `stop` code that joins `self._rup_watcher`. -/
theorem rup_initialize_parent_watcher_never_started :
    (rup_initialize_dispatch (RupInitState.mk true false false false)).watcherStarted = false
  ∧ (rup_initialize_dispatch (RupInitState.mk true false false false)).termCreated = false
  ∧ (rup_initialize_dispatch (RupInitState.mk false true false false)).watcherStarted = true
  ∧ (rup_initialize_dispatch (RupInitState.mk false true false false)).termCreated = true := by
  decide

/-- The behaviour of the OS child process as observed by `stop`:
    whether a watcher thread object exists on this side, and whether
    `mp.Process.is_alive` reports the child alive at each of the three
    relevant instants — after the graceful `join(timeout)`, immediately
    after `terminate()`, and after a hypothetical further wait of
    `timeout` following the termination signal (which the spec
    describes but the code never performs). -/
structure StopEnv where
  watcherExists : Bool
  aliveAfterJoin : Bool
  aliveAfterTerminate : Bool
  aliveAfterSecondWait : Bool
deriving DecidableEq, Repr

/-- What `stop` did and whether it raised `failed to stop child`. -/
structure StopResult where
  finalized : Bool
  termRequested : Bool
  hardKilled : Bool
  stopFailed : Bool
deriving DecidableEq, Repr

/-- `stop` (process.py:459-506): assert parent; call `_rup_finalize()`;
    if a watcher exists, set `_rup_term` and join the watcher with the
    timeout; `mp.Process.join(timeout)`; if still alive, `terminate()`
    (hard kill); then immediately — with no further wait — raise
    `failed to stop child` if `is_alive()` still holds. -/
def rup_stop (env : StopEnv) : StopResult :=
  let termRequested := env.watcherExists
  let hardKilled := env.aliveAfterJoin
  let stillAlive := env.aliveAfterJoin && env.aliveAfterTerminate
  { finalized := true, termRequested := termRequested,
    hardKilled := hardKilled, stopFailed := stillAlive }

/-- StopFailed as the claim states it: raised iff the child is still
    alive after the graceful wait AND after the forcible termination
    followed by a second wait of the same timeout. -/
def rup_stop_spec_raises (env : StopEnv) : Bool :=
  env.aliveAfterJoin && env.aliveAfterSecondWait

/-- C3 counterexample: a child that survives the graceful wait and the
    instant of the kill signal but dies before a second timeout would
    elapse.  The code raises `failed to stop child` (it checks
    `is_alive` immediately after `terminate()`, with no second wait,
    process.py:500-506), while the claim says StopFailed is raised only
    if the child is still alive after both attempts including the
    second wait. -/
theorem rup_stop_no_second_wait_cex :
    (rup_stop (StopEnv.mk false true true false)).stopFailed = true
  ∧ rup_stop_spec_raises (StopEnv.mk false true true false) = false := by
  decide

/-- C3 amended: for every timeout, `stop` (parent-only) invokes the
    parent finalizers, requests watcher termination when a watcher
    exists, waits up to the timeout for graceful child exit, forcibly
    terminates the child if it is still alive, and raises StopFailed if
    and only if the child is observed still alive immediately after the
    forcible termination — there is no second wait after the kill. -/
theorem rup_stop_behaviour :
    ∀ env : StopEnv,
      (rup_stop env).finalized = true
    ∧ (rup_stop env).termRequested = env.watcherExists
    ∧ (rup_stop env).hardKilled = env.aliveAfterJoin
    ∧ (rup_stop env).stopFailed = (env.aliveAfterJoin && env.aliveAfterTerminate) := by
  intro env
  exact ⟨rfl, rfl, rfl, rfl⟩

/-- How the child main loop ends (process.py:417-433): `work()` returned
    False (`work finished` is sent), `work()` raised (the error text is
    sent — repr is abstracted to the message text), or the loop exited
    because `_rup_term` was set or the parent died (nothing is sent). -/
inductive WorkOutcome where
  | finished
  | raised (e : String)
  | termFlag
deriving DecidableEq, Repr

/-- `run` (process.py:367-454), the child workload after the fork.
    `initErr` is a failure out of the child initializers (wrapped as
    `initialize: %s` at process.py:545 and sent by the except handler
    at process.py:433; the alive message is then never sent and the
    work loop never runs); `finErr` likewise for the finalizers (sent
    as `finalize(): %s`, process.py:444).  Returns the records sent on
    the lifeline, in order, and the process exit status: every path
    ends in `sys.exit(0)` (process.py:454). -/
def rup_run (initErr : Option String) (wk : WorkOutcome) (finErr : Option String) :
    List String × Nat :=
  let bodyMsgs :=
    match initErr with
    | some e => ["initialize: " ++ e]
    | none =>
      "alive" ::
        (match wk with
         | WorkOutcome.finished => ["work finished"]
         | WorkOutcome.raised e => [e]
         | WorkOutcome.termFlag => [])
  let finMsgs :=
    match finErr with
    | some e => ["finalize(): " ++ e]
    | none => []
  (bodyMsgs ++ finMsgs ++ ["terminating"], 0)

/-- C4 counterexample: a child whose initializer fails reports the
    failure on the lifeline but still exits with status 0 — `run` ends
    in `sys.exit(0)` on every path (process.py:454) — contradicting the
    claim that the exit status is non-zero on unhandled initialization
    failure.  The same holds for a finalization failure. -/
theorem rup_run_failure_exits_zero_cex :
    (rup_run (some "RuntimeError: oops init") WorkOutcome.termFlag none).2 = 0
  ∧ "initialize: RuntimeError: oops init"
      ∈ (rup_run (some "RuntimeError: oops init") WorkOutcome.termFlag none).1
  ∧ (rup_run none WorkOutcome.finished (some "RuntimeError: oops final")).2 = 0
  ∧ "finalize(): RuntimeError: oops final"
      ∈ (rup_run none WorkOutcome.finished (some "RuntimeError: oops final")).1 := by
  refine ⟨rfl, ?_, rfl, ?_⟩
  · simp [rup_run]
  · simp [rup_run]

/-- C4 amended: the child exits with status 0 on clean termination, and
    also exits with status 0 on unhandled initialization or
    finalization failure, after reporting the failure details on the
    lifeline — the exit status is 0 on every path. -/
theorem rup_run_exit_status :
    ∀ (initErr : Option String) (wk : WorkOutcome) (finErr : Option String),
      (rup_run initErr wk finErr).2 = 0
    ∧ (∀ e, initErr = some e →
         ("initialize: " ++ e) ∈ (rup_run initErr wk finErr).1)
    ∧ (∀ e, finErr = some e →
         ("finalize(): " ++ e) ∈ (rup_run initErr wk finErr).1)
    ∧ (initErr = none → "alive" ∈ (rup_run initErr wk finErr).1) := by
  intro initErr wk finErr
  refine ⟨rfl, ?_, ?_, ?_⟩
  · intro e he
    subst he
    simp [rup_run]
  · intro e he
    subst he
    cases initErr <;> simp [rup_run]
  · intro he
    subst he
    simp [rup_run]

theorem rup_run_exit_status_witness :
    (rup_run (some "E1") WorkOutcome.termFlag (some "E2")).2 = 0
  ∧ "initialize: E1" ∈ (rup_run (some "E1") WorkOutcome.termFlag (some "E2")).1
  ∧ "finalize(): E2" ∈ (rup_run (some "E1") WorkOutcome.termFlag (some "E2")).1 := by
  have h := rup_run_exit_status (some "E1") WorkOutcome.termFlag (some "E2")
  exact ⟨h.1, h.2.1 "E1" rfl, h.2.2.1 "E2" rfl⟩
